import Mathlib

/-!
Verification of the dividend-portfolio engine (aggregation + projection)
of the AI-Dividend-Tracker repository.

The numeric model uses exact rationals (`ℚ`) in place of JavaScript
floating-point numbers.  `Math.round` is embedded as `jsRound`
(round half toward positive infinity, the ECMAScript semantics) and
`Number(x.toFixed(2))` as `toFixed2`.  JavaScript truthiness on numbers
(`x || d`) is embedded as `if x = 0 then d else x`, which is exact for
rationals (there is no `NaN`/`undefined` in the model).
-/

namespace DiviTrack

/-- Embeds `Math.round`: ECMAScript rounds half toward +∞, i.e. `⌊x + 1/2⌋`. -/
def jsRound (q : ℚ) : ℤ := ⌊q + 1/2⌋

/-- Embeds `Number(x.toFixed(2))`: round to 2 decimal places, ties toward +∞. -/
def toFixed2 (q : ℚ) : ℚ := (⌊q * 100 + 1/2⌋ : ℚ) / 100

/-- Embeds `StockHolding` from `src/types.ts`. -/
structure StockHolding where
  id : String
  ticker : String
  quantity : ℚ
  purchaseDate : String
  purchasePrice : Option ℚ := none
deriving DecidableEq

/-- Embeds `DividendData` from `src/types.ts` (the numeric and identifying
fields; the purely descriptive fields `yield`, `payoutFrequency`,
`lastUpdated` and `sources` are never read by the aggregation or
projection code in `src/App.tsx` and are omitted). -/
structure DividendData where
  ticker : String
  name : String
  currentPrice : ℚ
  annualDividend : ℚ
  growthRate : ℚ
deriving DecidableEq

/-- The metadata cache `stockInfo : Record<string, DividendData>`: an
association list from ticker key to data, at most one entry per key in
any state the app constructs.  `stockInfo[t]` is `lookup`, and
`Object.values stockInfo` is `map Prod.snd`. -/
abbrev Cache := List (String × DividendData)

/-- Embeds `PortfolioSummary` from `src/types.ts`. -/
structure PortfolioSummary where
  totalValue : ℚ
  annualIncome : ℚ
  averageYield : ℚ
  yieldOnCost : ℚ
  totalShares : ℚ
deriving DecidableEq

/-- Embeds `ProjectionPoint` from `src/types.ts`.  The fields rounded by
`Math.round` in `src/App.tsx` are integers here; `yoc` is emitted
unrounded and `shares` is rounded to two decimals. -/
structure ProjectionPoint where
  year : ℕ
  balance : ℤ
  bearBalance : ℤ
  bullBalance : ℤ
  annualIncome : ℤ
  cumulativeDividends : ℤ
  yoc : ℚ
  shares : ℚ
deriving DecidableEq

/-- Embeds the `portfolioSummary` memo of `src/App.tsx` (lines 133–145):
a single pass over the holdings accumulating `(totalValue, annualIncome,
totalShares)`, adding value and income only when the ticker resolves in
the cache, followed by the weighted-yield computation. -/
def portfolioSummary (holdings : List StockHolding) (stockInfo : Cache) : PortfolioSummary :=
  let acc := holdings.foldl (fun (acc : ℚ × ℚ × ℚ) h =>
    match List.lookup h.ticker stockInfo with
    | some data =>
        (acc.1 + h.quantity * data.currentPrice,
         acc.2.1 + h.quantity * data.annualDividend,
         acc.2.2 + h.quantity)
    | none => (acc.1, acc.2.1, acc.2.2 + h.quantity)) (0, 0, 0)
  let totalValue := acc.1
  let annualIncome := acc.2.1
  let totalShares := acc.2.2
  let weightedYield := if 0 < totalValue then annualIncome / totalValue * 100 else 0
  { totalValue := totalValue, annualIncome := annualIncome,
    averageYield := weightedYield, yieldOnCost := weightedYield,
    totalShares := totalShares }

/-- Embeds `const initialInvestment = portfolioSummary.totalValue || 1`
(line 149): JavaScript `||` yields the right operand exactly when the
left one is falsy, i.e. `0` for a (non-`NaN`) number. -/
def initialInvestment (summary : PortfolioSummary) : ℚ :=
  if summary.totalValue = 0 then 1 else summary.totalValue

/-- Embeds `avgGrowth` (lines 150–151): the mean of `growthRate` over all
cached entries divided by 100, defaulting to `0.07` for an empty cache.
`curr.growthRate || 0` is the identity on a rational. -/
def avgGrowth (stockInfo : Cache) : ℚ :=
  let stocks := stockInfo.map Prod.snd
  if 0 < stocks.length then
    (stocks.foldl (fun acc curr => acc + curr.growthRate) 0) / stocks.length / 100
  else 0.07

/-- Embeds `initialAvgPrice = portfolioSummary.totalValue /
(portfolioSummary.totalShares || 1)` (line 152). -/
def initialAvgPrice (summary : PortfolioSummary) : ℚ :=
  summary.totalValue / (if summary.totalShares = 0 then 1 else summary.totalShares)

/-- Embeds `initialDivPerShare = portfolioSummary.annualIncome /
(portfolioSummary.totalShares || 1)` (line 153). -/
def initialDivPerShare (summary : PortfolioSummary) : ℚ :=
  summary.annualIncome / (if summary.totalShares = 0 then 1 else summary.totalShares)

/-- The mutable loop state of the projection loop (lines 155–157). -/
structure ProjState where
  shares : ℚ
  divPerShare : ℚ
  priceBase : ℚ
  priceBear : ℚ
  priceBull : ℚ
  cumulativeDiv : ℚ
deriving DecidableEq

/-- Embeds the `points.push({...})` of one loop iteration (lines 160–166). -/
def emitPoint (ii : ℚ) (year : ℕ) (s : ProjState) : ProjectionPoint :=
  let income := s.shares * s.divPerShare
  { year := year,
    balance := jsRound (s.shares * s.priceBase),
    bearBalance := jsRound (s.shares * s.priceBear),
    bullBalance := jsRound (s.shares * s.priceBull),
    annualIncome := jsRound income,
    cumulativeDividends := jsRound s.cumulativeDiv,
    yoc := income / ii * 100,
    shares := toFixed2 s.shares }

/-- Embeds the state updates at the end of one loop iteration
(lines 167–170): accumulate dividends, reinvest against the base price
track when it is positive, grow the per-share dividend, grow the three
price tracks by their fixed rates. -/
def stepState (g : ℚ) (s : ProjState) : ProjState :=
  let income := s.shares * s.divPerShare
  { shares := s.shares + (if 0 < s.priceBase then income / s.priceBase else 0),
    divPerShare := s.divPerShare * (1 + g),
    priceBase := s.priceBase * 1.05,
    priceBear := s.priceBear * 1.01,
    priceBull := s.priceBull * 1.09,
    cumulativeDiv := s.cumulativeDiv + income }

/-- The projection loop (lines 159–171), with an explicit iteration count
(`for (let year = 0; year <= 20; year++)` runs it with fuel 21 from
year 0). -/
def projLoop (ii g : ℚ) : ℕ → ℕ → ProjState → List ProjectionPoint
  | 0, _, _ => []
  | n + 1, year, s => emitPoint ii year s :: projLoop ii g n (year + 1) (stepState g s)

/-- Embeds the `projectionData` memo of `src/App.tsx` (lines 147–173). -/
def projectionData (summary : PortfolioSummary) (stockInfo : Cache) : List ProjectionPoint :=
  let p0 := initialAvgPrice summary
  projLoop (initialInvestment summary) (avgGrowth stockInfo) 21 0
    { shares := summary.totalShares,
      divPerShare := initialDivPerShare summary,
      priceBase := p0, priceBear := p0, priceBull := p0,
      cumulativeDiv := 0 }

/-- Sample holding for the concrete scenarios: ticker "X", quantity 100. -/
def holdingX : StockHolding :=
  { id := "h1", ticker := "X", quantity := 100, purchaseDate := "2024-01-01" }

/-- Sample metadata for ticker "X": price 10, dividend 1/share, growth 5%. -/
def dataX : DividendData :=
  { ticker := "X", name := "X Corp", currentPrice := 10, annualDividend := 1, growthRate := 5 }

/-- Metadata cache holding exactly the entry for "X". -/
def cacheX : Cache := [("X", dataX)]

/-- Sample metadata for a ticker "Y" that no holding refers to. -/
def dataY : DividendData :=
  { ticker := "Y", name := "Y Corp", currentPrice := 7, annualDividend := 2, growthRate := 405 }

/-- Cache extending `cacheX` with the unheld ticker "Y". -/
def cacheXY : Cache := [("X", dataX), ("Y", dataY)]

/-- Loop invariant for the dividend-reinvestment dynamics: the running
share count and per-share dividend stay non-negative. -/
def ReinvestInv (s : ProjState) : Prop := 0 ≤ s.shares ∧ 0 ≤ s.divPerShare

/-- Loop invariant for the three price tracks: non-negative and ordered
bear ≤ base ≤ bull. -/
def PriceInv (s : ProjState) : Prop :=
  0 ≤ s.priceBear ∧ s.priceBear ≤ s.priceBase ∧ s.priceBase ≤ s.priceBull

lemma reinvestInv_step (g : ℚ) (hg : -1 ≤ g) (s : ProjState) (h : ReinvestInv s) :
    ReinvestInv (stepState g s) := by
  obtain ⟨h1, h2⟩ := h
  constructor
  · by_cases hp : 0 < s.priceBase
    · have hq : 0 ≤ s.shares * s.divPerShare / s.priceBase :=
        div_nonneg (mul_nonneg h1 h2) hp.le
      simp only [stepState, if_pos hp]
      linarith
    · simp only [stepState, if_neg hp]
      linarith
  · simp only [stepState]
    exact mul_nonneg h2 (by linarith)

lemma cum_step_le (g : ℚ) (s : ProjState) (h : ReinvestInv s) :
    s.cumulativeDiv ≤ (stepState g s).cumulativeDiv := by
  have := mul_nonneg h.1 h.2
  simp only [stepState]
  linarith

lemma priceInv_step (g : ℚ) (s : ProjState) (h : PriceInv s) : PriceInv (stepState g s) := by
  obtain ⟨h0, h1, h2⟩ := h
  refine ⟨?_, ?_, ?_⟩ <;> simp only [stepState] <;> nlinarith

lemma jsRound_mono {a b : ℚ} (h : a ≤ b) : jsRound a ≤ jsRound b :=
  Int.floor_le_floor (by linarith)

lemma projLoop_ordered (ii g : ℚ) (hg : -1 ≤ g) (n : ℕ) : ∀ (y : ℕ) (s : ProjState),
    ReinvestInv s → PriceInv s →
    ∀ p ∈ projLoop ii g n y s, p.bearBalance ≤ p.balance ∧ p.balance ≤ p.bullBalance := by
  induction n with
  | zero => intro y s _ _ p hp; simp [projLoop] at hp
  | succ n ih =>
    intro y s hR hP p hp
    rw [projLoop, List.mem_cons] at hp
    rcases hp with hp | hp
    · subst hp
      constructor
      · exact jsRound_mono (mul_le_mul_of_nonneg_left hP.2.1 hR.1)
      · exact jsRound_mono (mul_le_mul_of_nonneg_left hP.2.2 hR.1)
    · exact ih (y + 1) (stepState g s) (reinvestInv_step g hg s hR) (priceInv_step g s hP) p hp

lemma projLoop_head_cum (ii g : ℚ) (n y : ℕ) (s : ProjState) :
    ∀ q ∈ (projLoop ii g (n + 1) y s).head?, q.cumulativeDividends = jsRound s.cumulativeDiv := by
  intro q hq
  rw [projLoop] at hq
  simp only [List.head?_cons, Option.mem_def, Option.some_inj] at hq
  subst hq
  rfl

lemma projLoop_chain (ii g : ℚ) (hg : -1 ≤ g) (n : ℕ) : ∀ (y : ℕ) (s : ProjState),
    ReinvestInv s →
    List.Chain' (fun a b => a.cumulativeDividends ≤ b.cumulativeDividends) (projLoop ii g n y s) := by
  induction n with
  | zero => intro y s _; simp [projLoop]
  | succ n ih =>
    intro y s h
    rw [projLoop, List.chain'_cons']
    constructor
    · intro q hq
      cases n with
      | zero => simp [projLoop] at hq
      | succ m =>
        rw [projLoop_head_cum ii g m (y + 1) (stepState g s) q hq]
        show (emitPoint ii y s).cumulativeDividends ≤ _
        exact jsRound_mono (cum_step_le g s h)
    · exact ih (y + 1) (stepState g s) (reinvestInv_step g hg s h)

lemma summary_foldl (M : Cache) (H : List StockHolding) (a b c : ℚ) :
    (H.foldl (fun (acc : ℚ × ℚ × ℚ) h =>
      match List.lookup h.ticker M with
      | some data =>
          (acc.1 + h.quantity * data.currentPrice,
           acc.2.1 + h.quantity * data.annualDividend,
           acc.2.2 + h.quantity)
      | none => (acc.1, acc.2.1, acc.2.2 + h.quantity)) (a, b, c)) =
      (a + (H.map (fun h => match List.lookup h.ticker M with
              | some d => h.quantity * d.currentPrice | none => 0)).sum,
       b + (H.map (fun h => match List.lookup h.ticker M with
              | some d => h.quantity * d.annualDividend | none => 0)).sum,
       c + (H.map (fun h => h.quantity)).sum) := by
  induction H generalizing a b c with
  | nil => simp
  | cons h t ih =>
    cases hl : List.lookup h.ticker M with
    | none => simp [hl, ih, add_assoc]
    | some d => simp [hl, ih, add_assoc]

lemma foldl_add_growthRate (l : List DividendData) (a : ℚ) :
    l.foldl (fun acc curr => acc + curr.growthRate) a = a + (l.map (fun d => d.growthRate)).sum := by
  induction l generalizing a with
  | nil => simp
  | cons d t ih => simp [ih, add_assoc]

lemma projLoop_year (ii g : ℚ) (n : ℕ) : ∀ (y : ℕ) (s : ProjState),
    (projLoop ii g n y s).map (fun p => p.year) = List.range' y n := by
  induction n with
  | zero => intro y s; simp [projLoop]
  | succ n ih => intro y s; simp [projLoop, emitPoint, ih, List.range']

set_option maxHeartbeats 1000000 in
/-- C1: for the single holding "X" (quantity 100) with cached metadata
price 10, dividend 1/share, growth 5%, the aggregator returns
totalValue 1000, annualIncome 100 and average yield 10%, the year-0
projection point has income 100, base balance 1000 and yield-on-cost
10%, and the year-1 point has 110 shares, income round(115.5) = 116 and
base balance round(110 × 10.5) = 1155. -/
theorem C1_concrete_scenario :
    (portfolioSummary [holdingX] cacheX).totalValue = 1000 ∧
    (portfolioSummary [holdingX] cacheX).annualIncome = 100 ∧
    (portfolioSummary [holdingX] cacheX).averageYield = 10 ∧
    ((projectionData (portfolioSummary [holdingX] cacheX) cacheX)[0]?).map
      (fun p => (p.annualIncome, p.balance, p.yoc)) = some (100, 1000, 10) ∧
    ((projectionData (portfolioSummary [holdingX] cacheX) cacheX)[1]?).map
      (fun p => (p.shares, p.annualIncome, p.balance)) = some (110, 116, 1155) := by
  refine ⟨?_, ?_, ?_, ?_, ?_⟩
  · norm_num [portfolioSummary, holdingX, dataX, cacheX, List.lookup]
  · norm_num [portfolioSummary, holdingX, dataX, cacheX, List.lookup]
  · norm_num [portfolioSummary, holdingX, dataX, cacheX, List.lookup]
  · simp [projectionData, projLoop, emitPoint, stepState, portfolioSummary, initialInvestment,
      avgGrowth, initialAvgPrice, initialDivPerShare, jsRound, toFixed2,
      holdingX, dataX, cacheX, List.lookup]
    norm_num [Int.floor_eq_iff]
  · simp [projectionData, projLoop, emitPoint, stepState, portfolioSummary, initialInvestment,
      avgGrowth, initialAvgPrice, initialDivPerShare, jsRound, toFixed2,
      holdingX, dataX, cacheX, List.lookup]
    norm_num [Int.floor_eq_iff]

/-- C2: for every holdings list and metadata cache, totalShares is the
sum of all quantities (cache hits or not), totalValue sums
quantity × currentPrice over exactly the holdings whose ticker resolves
in the cache, and annualIncome sums quantity × annualDividend over those
same holdings; a cache miss contributes 0 to value and income. -/
theorem C2_aggregator_sums (H : List StockHolding) (M : Cache) :
    (portfolioSummary H M).totalShares = (H.map (fun h => h.quantity)).sum ∧
    (portfolioSummary H M).totalValue =
      (H.map (fun h => match List.lookup h.ticker M with
        | some d => h.quantity * d.currentPrice | none => 0)).sum ∧
    (portfolioSummary H M).annualIncome =
      (H.map (fun h => match List.lookup h.ticker M with
        | some d => h.quantity * d.annualDividend | none => 0)).sum := by
  unfold portfolioSummary
  rw [summary_foldl]
  norm_num

/-- C3 (counterexample): the claim says the engine seeds
initialInvestment = totalValue if totalValue > 0 else 1 and
initialAvgPrice = totalValue / max(totalShares, 1).  At the summary with
totalValue = -1 and totalShares = 1/2 the code computes
initialInvestment = -1 (JavaScript `totalValue || 1` keeps any non-zero
value, including negatives) and initialAvgPrice = -1 / (1/2) = -2,
whereas the claim predicts 1 and -1 / max(1/2, 1) = -1. -/
theorem C3_counterexample :
    initialInvestment ⟨-1, 0, 0, 0, 1/2⟩ ≠ 1 ∧
    initialAvgPrice ⟨-1, 0, 0, 0, 1/2⟩ ≠
      (⟨-1, 0, 0, 0, 1/2⟩ : PortfolioSummary).totalValue /
        max (⟨-1, 0, 0, 0, 1/2⟩ : PortfolioSummary).totalShares 1 := by
  constructor
  · norm_num [initialInvestment]
  · norm_num [initialAvgPrice, max_def]

/-- C3 (amended): the engine seeds initialInvestment = totalValue when
totalValue ≠ 0 and 1 otherwise; avgGrowth = the mean of growthRatePct
over all cached entries divided by 100, or 0.07 when the cache is empty;
and the seed prices divide by totalShares when totalShares ≠ 0 and by 1
only when totalShares = 0 (JavaScript truthiness, not max(totalShares, 1)). -/
theorem C3_seed_values (s : PortfolioSummary) (c : Cache) :
    initialInvestment s = (if s.totalValue ≠ 0 then s.totalValue else 1) ∧
    avgGrowth c = (if c = [] then 0.07
      else (c.map (fun e => e.2.growthRate)).sum / c.length / 100) ∧
    initialAvgPrice s = s.totalValue / (if s.totalShares ≠ 0 then s.totalShares else 1) ∧
    initialDivPerShare s = s.annualIncome / (if s.totalShares ≠ 0 then s.totalShares else 1) := by
  refine ⟨?_, ?_, ?_, ?_⟩
  · unfold initialInvestment
    by_cases hv : s.totalValue = 0 <;> simp [hv]
  · unfold avgGrowth
    rcases c with _ | ⟨e, t⟩
    · simp
    · simp [foldl_add_growthRate, List.map_map, Function.comp_def]
  · unfold initialAvgPrice
    by_cases hs : s.totalShares = 0 <;> simp [hs]
  · unfold initialDivPerShare
    by_cases hs : s.totalShares = 0 <;> simp [hs]

/-- C4: on every input the aggregator returns averageYield and
yieldOnCost as the same value, equal to annualIncome / totalValue × 100
when totalValue > 0 and to 0 otherwise. -/
theorem C4_yield_conflation (H : List StockHolding) (M : Cache) :
    (portfolioSummary H M).averageYield = (portfolioSummary H M).yieldOnCost ∧
    (portfolioSummary H M).averageYield =
      (if 0 < (portfolioSummary H M).totalValue then
        (portfolioSummary H M).annualIncome / (portfolioSummary H M).totalValue * 100 else 0) := by
  constructor <;> rfl

/-- C5: on every input the projection is a sequence of exactly 21 points
whose year fields are 0, 1, ..., 20 in ascending order. -/
theorem C5_projection_shape (s : PortfolioSummary) (c : Cache) :
    (projectionData s c).length = 21 ∧
    (projectionData s c).map (fun p => p.year) = List.range 21 := by
  constructor
  · have hlen := congrArg List.length (projLoop_year (initialInvestment s) (avgGrowth c) 21 0
      { shares := s.totalShares, divPerShare := initialDivPerShare s,
        priceBase := initialAvgPrice s, priceBear := initialAvgPrice s,
        priceBull := initialAvgPrice s, cumulativeDiv := 0 })
    unfold projectionData
    simpa using hlen
  · unfold projectionData
    rw [projLoop_year, List.range_eq_range']

set_option maxHeartbeats 1000000 in
/-- C6 (counterexample): the claim asserts bearBalance ≤ baseBalance ≤
bullBalance for every input with totalValue ≥ 0 and totalShares ≥ 0, but
a summary with negative annualIncome (-300 on 100 shares worth 100)
drives the share count negative, and at year 1 the code emits
bearBalance = -202 and baseBalance = -210, violating bear ≤ base. -/
theorem C6_counterexample :
    (0:ℚ) ≤ (⟨100, -300, 0, 0, 100⟩ : PortfolioSummary).totalValue ∧
    (0:ℚ) ≤ (⟨100, -300, 0, 0, 100⟩ : PortfolioSummary).totalShares ∧
    ((projectionData ⟨100, -300, 0, 0, 100⟩ [])[1]?).map
      (fun p => (p.bearBalance, p.balance)) = some (-202, -210) ∧
    ¬ ((-202 : ℤ) ≤ -210) := by
  refine ⟨by norm_num, by norm_num, ?_, by norm_num⟩
  norm_num [projectionData, projLoop, emitPoint, stepState, initialInvestment, avgGrowth,
    initialAvgPrice, initialDivPerShare, jsRound, toFixed2, Int.floor_eq_iff]

/-- C6 (amended): when additionally the summary's annualIncome is
non-negative and the seeded average growth rate is at least -1 (mean
growthRatePct ≥ -100), every emitted point satisfies
bearBalance ≤ baseBalance ≤ bullBalance. -/
theorem C6_scenario_ordering (s : PortfolioSummary) (c : Cache)
    (hv : 0 ≤ s.totalValue) (hsh : 0 ≤ s.totalShares)
    (hi : 0 ≤ s.annualIncome) (hg : -1 ≤ avgGrowth c) :
    ∀ p ∈ projectionData s c, p.bearBalance ≤ p.balance ∧ p.balance ≤ p.bullBalance := by
  have hden : 0 < (if s.totalShares = 0 then 1 else s.totalShares) := by
    by_cases h0 : s.totalShares = 0
    · simp [h0]
    · simp only [if_neg h0]
      exact lt_of_le_of_ne hsh (Ne.symm h0)
  have hp0 : 0 ≤ initialAvgPrice s := div_nonneg hv hden.le
  have hd0 : 0 ≤ initialDivPerShare s := div_nonneg hi hden.le
  exact projLoop_ordered (initialInvestment s) (avgGrowth c) hg 21 0 _
    ⟨hsh, hd0⟩ ⟨hp0, le_refl _, le_refl _⟩

/-- C6 (witness): the scenario-ordering theorem applied to a concrete
all-non-negative summary. -/
theorem C6_scenario_ordering_witness :
    (0:ℚ) ≤ (⟨1000, 100, 10, 10, 100⟩ : PortfolioSummary).totalValue ∧
    (0:ℚ) ≤ (⟨1000, 100, 10, 10, 100⟩ : PortfolioSummary).totalShares ∧
    (0:ℚ) ≤ (⟨1000, 100, 10, 10, 100⟩ : PortfolioSummary).annualIncome ∧
    (-1:ℚ) ≤ avgGrowth [] ∧
    ∀ p ∈ projectionData ⟨1000, 100, 10, 10, 100⟩ [],
      p.bearBalance ≤ p.balance ∧ p.balance ≤ p.bullBalance :=
  ⟨by norm_num, by norm_num, by norm_num, by norm_num [avgGrowth],
   C6_scenario_ordering ⟨1000, 100, 10, 10, 100⟩ [] (by norm_num) (by norm_num) (by norm_num)
     (by norm_num [avgGrowth])⟩

set_option maxHeartbeats 1000000 in
/-- C7 (counterexample): the claim asserts cumulativeDividends is
non-decreasing for every summary and cache, but with annualIncome = -300
the emitted cumulativeDividends drops from 0 at year 0 to -300 at
year 1. -/
theorem C7_counterexample :
    ((projectionData ⟨100, -300, 0, 0, 100⟩ [])[0]?).map
      (fun p => p.cumulativeDividends) = some 0 ∧
    ((projectionData ⟨100, -300, 0, 0, 100⟩ [])[1]?).map
      (fun p => p.cumulativeDividends) = some (-300) ∧
    ¬ ((0 : ℤ) ≤ -300) := by
  refine ⟨?_, ?_, by norm_num⟩ <;>
  norm_num [projectionData, projLoop, emitPoint, stepState, initialInvestment, avgGrowth,
    initialAvgPrice, initialDivPerShare, jsRound, toFixed2, Int.floor_eq_iff]

/-- C7 (amended): when the summary has totalShares ≥ 0 and
annualIncome ≥ 0 and the seeded average growth rate is at least -1, the
cumulativeDividends fields of consecutive projection points are
non-decreasing. -/
theorem C7_cumdiv_monotone (s : PortfolioSummary) (c : Cache)
    (hsh : 0 ≤ s.totalShares) (hi : 0 ≤ s.annualIncome) (hg : -1 ≤ avgGrowth c) :
    List.Chain' (fun a b => a.cumulativeDividends ≤ b.cumulativeDividends)
      (projectionData s c) := by
  have hden : 0 < (if s.totalShares = 0 then 1 else s.totalShares) := by
    by_cases h0 : s.totalShares = 0
    · simp [h0]
    · simp only [if_neg h0]
      exact lt_of_le_of_ne hsh (Ne.symm h0)
  have hd0 : 0 ≤ initialDivPerShare s := div_nonneg hi hden.le
  exact projLoop_chain (initialInvestment s) (avgGrowth c) hg 21 0 _ ⟨hsh, hd0⟩

/-- C7 (witness): the cumulative-dividend monotonicity theorem applied
to a concrete all-non-negative summary. -/
theorem C7_cumdiv_monotone_witness :
    (0:ℚ) ≤ (⟨1000, 100, 10, 10, 100⟩ : PortfolioSummary).totalShares ∧
    (0:ℚ) ≤ (⟨1000, 100, 10, 10, 100⟩ : PortfolioSummary).annualIncome ∧
    (-1:ℚ) ≤ avgGrowth [] ∧
    List.Chain' (fun a b => a.cumulativeDividends ≤ b.cumulativeDividends)
      (projectionData ⟨1000, 100, 10, 10, 100⟩ []) :=
  ⟨by norm_num, by norm_num, by norm_num [avgGrowth],
   C7_cumdiv_monotone ⟨1000, 100, 10, 10, 100⟩ [] (by norm_num) (by norm_num)
     (by norm_num [avgGrowth])⟩

set_option maxHeartbeats 2000000 in
/-- C8: on the empty holdings list and empty cache the aggregator
returns the all-zero summary, and the projection is 21 points whose
every field except year is 0 (in particular yoc = 0 throughout, income 0
divided by the floored initialInvestment 1). -/
theorem C8_empty_portfolio :
    portfolioSummary [] [] = ⟨0, 0, 0, 0, 0⟩ ∧
    projectionData (portfolioSummary [] []) [] =
      (List.range 21).map (fun y => ⟨y, 0, 0, 0, 0, 0, 0, 0⟩) := by
  constructor
  · simp [portfolioSummary]
  · rw [show List.range 21 = [0, 1, 2, 3, 4, 5, 6, 7, 8, 9, 10,
      11, 12, 13, 14, 15, 16, 17, 18, 19, 20] from rfl]
    simp [projectionData, projLoop, emitPoint, stepState, portfolioSummary, initialInvestment,
      avgGrowth, initialAvgPrice, initialDivPerShare, jsRound, toFixed2]
    norm_num [Int.floor_eq_iff]

/-- C9: for every summary with totalShares ≠ 0, the year-0 projection
point is consistent with the aggregator: all three balances equal
round(totalValue), annualIncome equals round of the summary's
annualIncome, and cumulativeDividends is 0. -/
theorem C9_year_zero_consistency (s : PortfolioSummary) (c : Cache)
    (h : s.totalShares ≠ 0) :
    ((projectionData s c)[0]?).map
      (fun p => (p.balance, p.bearBalance, p.bullBalance, p.annualIncome, p.cumulativeDividends)) =
      some (jsRound s.totalValue, jsRound s.totalValue, jsRound s.totalValue,
        jsRound s.annualIncome, 0) := by
  have hmulV : s.totalShares * (s.totalValue / s.totalShares) = s.totalValue := by
    field_simp
  have hmulI : s.totalShares * (s.annualIncome / s.totalShares) = s.annualIncome := by
    field_simp
  have h0 : (projectionData s c)[0]? = some (emitPoint (initialInvestment s) 0
      { shares := s.totalShares, divPerShare := initialDivPerShare s,
        priceBase := initialAvgPrice s, priceBear := initialAvgPrice s,
        priceBull := initialAvgPrice s, cumulativeDiv := 0 }) := rfl
  rw [h0]
  simp [emitPoint, initialAvgPrice, initialDivPerShare, if_neg h, hmulV, hmulI]
  norm_num [jsRound]

/-- C9 (witness): the year-0 consistency theorem applied to a concrete
summary with 100 shares worth 1000 and income 100. -/
theorem C9_year_zero_consistency_witness :
    (⟨1000, 100, 10, 10, 100⟩ : PortfolioSummary).totalShares ≠ 0 ∧
    ((projectionData ⟨1000, 100, 10, 10, 100⟩ [])[0]?).map
      (fun p => (p.balance, p.bearBalance, p.bullBalance, p.annualIncome, p.cumulativeDividends)) =
      some (jsRound 1000, jsRound 1000, jsRound 1000, jsRound 100, 0) :=
  ⟨by norm_num, C9_year_zero_consistency ⟨1000, 100, 10, 10, 100⟩ [] (by norm_num)⟩

set_option maxHeartbeats 1000000 in
/-- C10: there is a holdings list and a cache which, extended by one
entry for a ticker held by no holding, leaves the aggregator's summary
unchanged but changes the projection: avgGrowth averages over every
cache entry, held or not. -/
theorem C10_unheld_ticker_influence :
    portfolioSummary [holdingX] cacheX = portfolioSummary [holdingX] cacheXY ∧
    cacheXY = cacheX ++ [("Y", dataY)] ∧
    (∀ h ∈ [holdingX], h.ticker ≠ "Y") ∧
    projectionData (portfolioSummary [holdingX] cacheX) cacheX ≠
      projectionData (portfolioSummary [holdingX] cacheXY) cacheXY := by
  refine ⟨?_, rfl, ?_, ?_⟩
  · norm_num [portfolioSummary, holdingX, dataX, dataY, cacheX, cacheXY, List.lookup]
  · intro h hh
    simp only [List.mem_singleton] at hh
    subst hh
    simp [holdingX]
  · intro heq
    have h2 := congrArg (fun l => (l[1]?).map (fun p => p.annualIncome)) heq
    norm_num [projectionData, projLoop, emitPoint, stepState, portfolioSummary, initialInvestment,
      avgGrowth, initialAvgPrice, initialDivPerShare, jsRound, toFixed2,
      holdingX, dataX, dataY, cacheX, cacheXY, List.lookup, Int.floor_eq_iff] at h2

end DiviTrack
